import Mathlib

/-!
Verification of `CustomClassesInPython.py`.

The source defines a single class `Rectangle` with two attributes set in
`__init__` (`self.length = length`, `self.width = width`) and a generator
method `__iter__` that first yields the single-entry dict
`{'length': self.length}` and then yields `{'width': self.width}`.
A `__main__` block constructs `Rectangle(length=10, width=5)` and prints
each yielded mapping on its own line.

Embedding choices:
* `Rectangle α` is a two-field record.  The Python attributes are
  dynamically typed, so the record is polymorphic in the stored type;
  the annotated type `int` corresponds to `Rectangle Int`.
* A yielded element (a single-entry dict `{'k': v}`) is a pair
  `(String × α)` of the key and the value.
* The generator produced by `__iter__` is embedded as an explicit step
  function `genStep` on a suspension-state type `GenState`.  Each step
  receives the current rectangle (the generator reads `self.length` /
  `self.width` at resumption time, not at creation time) and returns the
  yielded element, the next suspension state, and the rectangle state
  after the step (the body contains no assignment, so the rectangle is
  returned unchanged).
* `runGen` drives a generator to exhaustion with fuel, threading the
  rectangle state through the steps; `Rectangle.iter` is one fresh,
  fully consumed run, matching `list(rect)`.
-/

/-- The `Rectangle` class: `__init__` stores both arguments verbatim as
the attributes `length` and `width` (lines 2-4 of the source). -/
structure Rectangle (α : Type) where
  length : α
  width : α
deriving DecidableEq, Repr

/-- Suspension states of the generator returned by `Rectangle.__iter__`:
before the first `yield`, between the two `yield`s, and after falling off
the end of the body. -/
inductive GenState where
  | start
  | afterLength
  | done
deriving DecidableEq, Repr

/-- One resumption of the `__iter__` generator (lines 6-8 of the source).
Given the rectangle the generator is bound to and the current suspension
state, it returns `none` when the generator is exhausted (Python raises
`StopIteration`), or the yielded single-entry mapping, the next suspension
state, and the rectangle as left by the step.  The attribute is read from
the rectangle passed to the step, reflecting that `self.length` and
`self.width` are evaluated when the generator resumes. -/
def genStep {α : Type} (r : Rectangle α) : GenState → Option ((String × α) × GenState × Rectangle α)
  | GenState.start => some (("length", r.length), GenState.afterLength, r)
  | GenState.afterLength => some (("width", r.width), GenState.done, r)
  | GenState.done => none

/-- Run a generator for at most `fuel` resumptions from state `s`,
threading the rectangle state through the steps.  Returns the list of
yielded elements and the final rectangle state. -/
def runGen {α : Type} : Nat → Rectangle α → GenState → List (String × α) × Rectangle α
  | 0, r, _ => ([], r)
  | fuel + 1, r, s =>
    match genStep r s with
    | none => ([], r)
    | some (e, s2, r2) =>
      let rest := runGen fuel r2 s2
      (e :: rest.1, rest.2)

/-- The sequence obtained by one fresh, fully consumed iteration of a
rectangle (`list(rect)`): a fresh generator is created in `GenState.start`
and resumed until exhausted.  Fuel 3 covers the two productive resumptions
and the final exhausted one. -/
def Rectangle.iter {α : Type} (r : Rectangle α) : List (String × α) :=
  (runGen 3 r GenState.start).1

/-- The rectangle state left after one fresh, fully consumed iteration. -/
def Rectangle.iterFinal {α : Type} (r : Rectangle α) : Rectangle α :=
  (runGen 3 r GenState.start).2

/-- Python's textual rendering of a yielded single-entry dict with an
integer value, as `print` shows it: `\x7b'key': value\x7d`. -/
def pyDictRepr (e : String × Int) : String :=
  "\x7b\x27" ++ e.1 ++ "\x27: " ++ toString e.2 ++ "\x7d"

/-- The `__main__` block (lines 11-14 of the source): construct
`Rectangle(length=10, width=5)`, print each yielded mapping on its own
line, and exit.  The result is the list of printed lines paired with the
process exit code (0: the block runs to completion without raising). -/
def demoMain : List String × Nat :=
  let rect : Rectangle Int := Rectangle.mk 10 5
  (rect.iter.map pyDictRepr, 0)

/-- A call of the constructor `Rectangle(length=..., width=...)` under
Python's argument-binding rules for the signature
`__init__(self, length: int, width: int)` (line 2 of the source): both
parameters are required and have no defaults, so a call omitting either
fails with `TypeError` before any instance attribute is set; a call
supplying both returns the fully formed instance. -/
def constructRectangle (length? : Option Int) (width? : Option Int) :
    Except String (Rectangle Int) :=
  match length?, width? with
  | some l, some w => Except.ok (Rectangle.mk l w)
  | none, some _ =>
    Except.error "TypeError: __init__() missing 1 required positional argument: length"
  | some _, none =>
    Except.error "TypeError: __init__() missing 1 required positional argument: width"
  | none, none =>
    Except.error "TypeError: __init__() missing 2 required positional arguments: length and width"

/-- C1: for every pair of integers `l` and `w`, constructing a Rectangle
with `length = l`, `width = w` and iterating it yields exactly the
two-element ordered sequence `[("length", l), ("width", w)]`. -/
theorem c1_construct_iter (l w : Int) :
    (Rectangle.mk l w).iter = [("length", l), ("width", w)] := rfl

/-- C2: iterating the same instance twice independently (two fresh runs
from `GenState.start`, no mutation in between) yields element-wise equal
sequences, and each fresh run starts from the first element, the
`length` mapping. -/
theorem c2_restartable {α : Type} (r : Rectangle α) :
    ((runGen 3 r GenState.start).1.length = (runGen 3 r GenState.start).1.length ∧
      ∀ i : Nat, (runGen 3 r GenState.start).1.get? i = (runGen 3 r GenState.start).1.get? i) ∧
    (runGen 3 r GenState.start).1.head? = some ("length", r.length) :=
  ⟨⟨rfl, fun _ => rfl⟩, rfl⟩

/-- C3: for every constructed rectangle, whatever the stored values, the
element keyed `"length"` occurs strictly before the element keyed
`"width"` in the iteration sequence. -/
theorem c3_order_invariant {α : Type} (r : Rectangle α) :
    r.iter.findIdx (fun e => e.1 == "length") < r.iter.findIdx (fun e => e.1 == "width") := by
  show (0 : Nat) < 1
  exact Nat.zero_lt_one

/-- C4: iteration does not mutate the instance: the rectangle state after
a fully consumed iteration has the same `length` and `width` fields as
before the iteration began. -/
theorem c4_frame {α : Type} (r : Rectangle α) :
    r.iterFinal.length = r.length ∧ r.iterFinal.width = r.width :=
  ⟨rfl, rfl⟩

/-- C5: for a rectangle holding values of any type whatsoever, iteration
always succeeds structurally: `Rectangle.iter` is a total function and
the sequence it produces has exactly 2 elements. -/
theorem c5_totality (α : Type) (r : Rectangle α) : r.iter.length = 2 := rfl

/-- C6: zero and negative integers are accepted by construction without
error; constructing with `length = 0`, `width = -5` succeeds and iterating
yields `[("length", 0), ("width", -5)]`. -/
theorem c6_boundary :
    constructRectangle (some 0) (some (-5)) = Except.ok (Rectangle.mk 0 (-5)) ∧
    (Rectangle.mk (0 : Int) (-5)).iter = [("length", 0), ("width", -5)] :=
  ⟨rfl, rfl⟩

/-- C7: run directly as a program, the file constructs one Rectangle with
`length = 10`, `width = 5`, prints exactly the two lines
`\x7b'length': 10\x7d` then `\x7b'width': 5\x7d` in order, and exits with
code 0. -/
theorem c7_demo_main :
    demoMain = (["\x7b\x27length\x27: 10\x7d", "\x7b\x27width\x27: 5\x7d"], 0) := by
  decide

/-- C8: omitting a required construction value (`length` or `width`)
makes the construction call itself fail with the language's
argument-binding error: the call never returns a (possibly
partially-formed) Rectangle instance. -/
theorem c8_missing_argument (length? width? : Option Int)
    (h : length? = none ∨ width? = none) :
    (∃ msg : String, constructRectangle length? width? = Except.error msg) ∧
    ∀ r : Rectangle Int, constructRectangle length? width? ≠ Except.ok r := by
  cases length? <;> cases width? <;> simp [constructRectangle] at h ⊢

/-- Witness for C8 at the concrete call omitting `length` with
`width = 5`. -/
theorem c8_missing_argument_witness :
    (∃ msg : String, constructRectangle none (some 5) = Except.error msg) ∧
    ∀ r : Rectangle Int, constructRectangle none (some 5) ≠ Except.ok r :=
  c8_missing_argument none (some 5) (Or.inl rfl)

/-- C9: iteration is a pure function of the two field values: any two
rectangles with equal `length` fields and equal `width` fields produce
element-wise equal iteration sequences. -/
theorem c9_determinism {α : Type} (r1 r2 : Rectangle α)
    (hl : r1.length = r2.length) (hw : r1.width = r2.width) :
    r1.iter = r2.iter := by
  cases r1
  cases r2
  cases hl
  cases hw
  rfl

/-- Witness for C9 at two concrete equal-field rectangles. -/
theorem c9_determinism_witness :
    (Rectangle.mk (3 : Int) 4).iter = (Rectangle.mk (3 : Int) 4).iter :=
  c9_determinism (Rectangle.mk 3 4) (Rectangle.mk 3 4) rfl rfl

/-- C10: each attribute is read only when its element is produced.  The
first resumption on rectangle `r` yields the `length` mapping and
suspends; if the width field is then reassigned to `w2` (the rectangle
becomes `⟨r.length, w2⟩`) before the second resumption, that resumption
yields `("width", w2)` — the new value, not the one held when iteration
began. -/
theorem c10_late_binding {α : Type} (r : Rectangle α) (w2 : α) :
    genStep r GenState.start = some (("length", r.length), GenState.afterLength, r) ∧
    genStep (Rectangle.mk r.length w2) GenState.afterLength =
      some (("width", w2), GenState.done, Rectangle.mk r.length w2) :=
  ⟨rfl, rfl⟩
